import Mathlib

/-!
Verification of the resource-accounting subsystem in
`crates/node/src/scheduler/resource_manager.rs`.

The Rust code is embedded shallowly:
* `ResourceManager` is the triple of available counters (u64 values,
  represented as `Nat`; arithmetic that can overflow carries an explicit
  `% 2 ^ 64`).
* The global Prometheus-style gauges are modelled as an explicit `Metrics`
  record threaded through each operation; `Gauge.set(x as i64)` becomes a
  field update with the `u64_as_i64` reinterpretation cast.
* `try_allocate` returns the post-state, the post-metrics and an
  `Except ResourceError ResourceAllocation`, mirroring the in-place
  mutation under the mutex plus the returned `Result`.
* The RAII release path (`impl Drop for ResourceAllocation` calling
  `free`) is modelled by a small operational semantics: a `PoolState`
  holds the manager together with the list of outstanding allocations,
  and an `Op.release i` step frees outstanding allocation `i` exactly
  once, removing it from the list.
-/

namespace Gevulot

/-- The u64 modulus. -/
def U64_MOD : Nat := 2 ^ 64

/-- Reinterpretation of a u64 value as an i64, as performed by
`value as i64` at the metric sinks. -/
def u64_as_i64 (x : Nat) : Int :=
  if x % U64_MOD < 2 ^ 63 then ((x % U64_MOD : Nat) : Int)
  else ((x % U64_MOD : Nat) : Int) - (2 ^ 64 : Int)

/-- Mirrors `types::program::ResourceRequest` as used by `try_allocate`:
the three requested amounts. -/
structure ResourceRequest where
  mem : Nat
  cpus : Nat
  gpus : Nat
deriving DecidableEq, Repr

/-- Mirrors `ResourceAllocation` (its three granted amounts; the
`Arc<Mutex<ResourceManager>>` back-reference is ownership plumbing and
carries no state of its own). -/
structure ResourceAllocation where
  mem : Nat
  cpus : Nat
  gpus : Nat
deriving DecidableEq, Repr

/-- Mirrors `ResourceError`. -/
inductive ResourceError where
  | NotEnoughResources (resource : String)
deriving DecidableEq, Repr

/-- Mirrors `ResourceManager`: the three available counters. -/
structure ResourceManager where
  available_mem : Nat
  available_cpus : Nat
  available_gpus : Nat
deriving DecidableEq, Repr

/-- The six gauges touched by the module (`metrics::CPUS_TOTAL`,
`MEM_TOTAL`, `GPUS_TOTAL`, `CPUS_AVAILABLE`, `MEM_AVAILABLE`,
`GPUS_AVAILABLE`), modelled as explicit state. -/
structure Metrics where
  cpus_total : Int
  mem_total : Int
  gpus_total : Int
  cpus_available : Int
  mem_available : Int
  gpus_available : Int
deriving DecidableEq, Repr

/-- Mirrors `ResourceManager::new`: sets the three total gauges and
returns the manager with `available = total` for each resource. -/
def ResourceManager.new (total_mem total_cpus total_gpus : Nat) (m : Metrics) :
    ResourceManager × Metrics :=
  let m := { m with
    cpus_total := u64_as_i64 total_cpus
    mem_total := u64_as_i64 total_mem
    gpus_total := u64_as_i64 total_gpus }
  ({ available_mem := total_mem
     available_cpus := total_cpus
     available_gpus := total_gpus }, m)

/-- Mirrors `ResourceManager::try_allocate`: checks memory, then cpus,
then gpus, returning the first insufficiency as an error without
touching the state; on success deducts all three amounts, updates the
three available gauges and returns the allocation. The first component
is the manager state after the call (the Rust code mutates in place
under the mutex). -/
def ResourceManager.try_allocate (rm : ResourceManager) (request : ResourceRequest)
    (m : Metrics) : ResourceManager × Metrics × Except ResourceError ResourceAllocation :=
  if rm.available_mem < request.mem then
    (rm, m, Except.error (ResourceError.NotEnoughResources "memory"))
  else if rm.available_cpus < request.cpus then
    (rm, m, Except.error (ResourceError.NotEnoughResources "cpus"))
  else if rm.available_gpus < request.gpus then
    (rm, m, Except.error (ResourceError.NotEnoughResources "gpus"))
  else
    let rm' : ResourceManager :=
      { available_mem := rm.available_mem - request.mem
        available_cpus := rm.available_cpus - request.cpus
        available_gpus := rm.available_gpus - request.gpus }
    let m' := { m with
      cpus_available := u64_as_i64 rm'.available_cpus
      mem_available := u64_as_i64 rm'.available_mem
      gpus_available := u64_as_i64 rm'.available_gpus }
    (rm', m', Except.ok
      { mem := request.mem, cpus := request.cpus, gpus := request.gpus })

/-- Mirrors `ResourceManager::free`: adds the allocation's amounts back
to the available counters (u64 addition, hence the explicit wrap) and
updates the three available gauges. -/
def ResourceManager.free (rm : ResourceManager) (allocation : ResourceAllocation)
    (m : Metrics) : ResourceManager × Metrics :=
  let rm' : ResourceManager :=
    { available_mem := (rm.available_mem + allocation.mem) % U64_MOD
      available_cpus := (rm.available_cpus + allocation.cpus) % U64_MOD
      available_gpus := (rm.available_gpus + allocation.gpus) % U64_MOD }
  let m' := { m with
    cpus_available := u64_as_i64 rm'.available_cpus
    mem_available := u64_as_i64 rm'.available_mem
    gpus_available := u64_as_i64 rm'.available_gpus }
  (rm', m')

/-- Modelled from the spec: the `crate::cli::Config` struct is declared
in the cli module, outside this source file; `get_configured_resources`
reads three optional overrides from it — GPU device configuration
(only presence matters), a CPU count and a memory size in gigabytes. -/
structure Config where
  gpu_devices : Option String
  num_cpus : Option Nat
  mem_gb : Option Nat
deriving DecidableEq, Repr

/-- Mirrors `get_configured_resources`. The environment probes
(`num_cpus::get()` and `systemstat`'s total memory, both external
library calls) enter as the parameters `env_num_cpus` and
`env_total_mem`. Returns `(num_cpus, available_mem, num_gpus)`. -/
def get_configured_resources (config : Config) (env_num_cpus env_total_mem : Nat) :
    Nat × Nat × Nat :=
  let num_gpus : Nat := if config.gpu_devices.isSome then 1 else 0
  let num_cpus : Nat :=
    match config.num_cpus with
    | some cpus => cpus
    | none => env_num_cpus
  let available_mem : Nat :=
    match config.mem_gb with
    | some mem_gb => (mem_gb * 1024 * 1024 * 1024) % U64_MOD
    | none => env_total_mem
  (num_cpus, available_mem, num_gpus)

/-! Operational semantics for allocation lifecycles: a `PoolState` is the
manager, the metrics and the outstanding (not yet dropped) allocations;
an `Op.release i` models the `Drop` of outstanding allocation `i`, which
removes it from scope, so it can never be freed twice. -/

/-- One client-visible operation on the pool. -/
inductive Op where
  | alloc (request : ResourceRequest)
  | release (i : Nat)
deriving DecidableEq, Repr

/-- The pool together with its outstanding allocations. -/
structure PoolState where
  rm : ResourceManager
  metrics : Metrics
  outstanding : List ResourceAllocation
deriving DecidableEq, Repr

/-- One step: an allocation attempt (kept when it succeeds) or the drop
of an outstanding allocation. -/
def step (s : PoolState) (op : Op) : PoolState :=
  match op with
  | Op.alloc request =>
    let r := s.rm.try_allocate request s.metrics
    { rm := r.1
      metrics := r.2.1
      outstanding :=
        match r.2.2 with
        | Except.ok a => a :: s.outstanding
        | Except.error _ => s.outstanding }
  | Op.release i =>
    match s.outstanding[i]? with
    | some a =>
      let r := s.rm.free a s.metrics
      { rm := r.1, metrics := r.2, outstanding := s.outstanding.eraseIdx i }
    | none => s

/-- Runs a sequence of operations from a state. -/
def run (s : PoolState) : List Op → PoolState
  | [] => s
  | op :: ops => run (step s op) ops

/-- The conservation invariant: for each resource, the available amount
plus the amounts held by the outstanding allocations equals the total. -/
def conserves (total_mem total_cpus total_gpus : Nat) (s : PoolState) : Prop :=
  s.rm.available_mem + (s.outstanding.map ResourceAllocation.mem).sum = total_mem ∧
  s.rm.available_cpus + (s.outstanding.map ResourceAllocation.cpus).sum = total_cpus ∧
  s.rm.available_gpus + (s.outstanding.map ResourceAllocation.gpus).sum = total_gpus

/-- The initial pool state produced by `ResourceManager::new`. -/
def initState (total_mem total_cpus total_gpus : Nat) (m : Metrics) : PoolState :=
  { rm := (ResourceManager.new total_mem total_cpus total_gpus m).1
    metrics := (ResourceManager.new total_mem total_cpus total_gpus m).2
    outstanding := [] }

/-! Helper lemmas shared by the claim proofs. -/

/-- Removing element `i` from a list removes exactly its contribution
from the mapped sum. -/
theorem sum_map_eraseIdx {α : Type} (f : α → Nat) :
    ∀ (l : List α) (i : Nat) (a : α), l[i]? = some a →
      ((l.eraseIdx i).map f).sum + f a = (l.map f).sum
  | [], i, a, h => by simp at h
  | x :: xs, 0, a, h => by
    simp only [List.getElem?_cons_zero, Option.some.injEq] at h
    subst h
    simp [List.eraseIdx]
    omega
  | x :: xs, i + 1, a, h => by
    simp only [List.getElem?_cons_succ] at h
    have ih := sum_map_eraseIdx f xs i a h
    simp only [List.eraseIdx, List.map_cons, List.sum_cons]
    omega

/-- A single step preserves the conservation invariant, as long as the
totals are representable as u64 (so the wrap in `free` is inert). -/
theorem step_preserves_conserves (total_mem total_cpus total_gpus : Nat)
    (s : PoolState) (op : Op)
    (hm : total_mem < U64_MOD) (hc : total_cpus < U64_MOD) (hg : total_gpus < U64_MOD)
    (hinv : conserves total_mem total_cpus total_gpus s) :
    conserves total_mem total_cpus total_gpus (step s op) := by
  obtain ⟨h1, h2, h3⟩ := hinv
  cases op with
  | alloc request =>
    simp only [step, ResourceManager.try_allocate]
    split_ifs with hmem hcpus hgpus
    · exact ⟨h1, h2, h3⟩
    · exact ⟨h1, h2, h3⟩
    · exact ⟨h1, h2, h3⟩
    · refine ⟨?_, ?_, ?_⟩ <;> simp only [List.map_cons, List.sum_cons] <;> omega
  | release i =>
    simp only [step]
    cases hget : s.outstanding[i]? with
    | none => exact ⟨h1, h2, h3⟩
    | some a =>
      have hmem := sum_map_eraseIdx ResourceAllocation.mem s.outstanding i a hget
      have hcpus := sum_map_eraseIdx ResourceAllocation.cpus s.outstanding i a hget
      have hgpus := sum_map_eraseIdx ResourceAllocation.gpus s.outstanding i a hget
      simp only [ResourceManager.free]
      refine ⟨?_, ?_, ?_⟩ <;> simp only [] <;>
        rw [Nat.mod_eq_of_lt (by omega)] <;> omega

/-- A zero metrics state used by concrete witnesses. -/
def m0 : Metrics :=
  { cpus_total := 0, mem_total := 0, gpus_total := 0
    cpus_available := 0, mem_available := 0, gpus_available := 0 }

/-! The claims. -/

/-- C1: Conservation invariant — for every sequence of `try_allocate`
and release operations starting from a pool constructed with totals
`(total_mem, total_cpus, total_gpus)`, after any run (hence at every
point between operations, each such point being a run of a shorter
sequence) `available_X` plus the sum of the amounts held by the
outstanding allocations equals `total_X`, for each resource X. -/
theorem conservation_invariant (total_mem total_cpus total_gpus : Nat)
    (m : Metrics) (ops : List Op)
    (hm : total_mem < U64_MOD) (hc : total_cpus < U64_MOD) (hg : total_gpus < U64_MOD) :
    conserves total_mem total_cpus total_gpus
      (run (initState total_mem total_cpus total_gpus m) ops) := by
  have key : ∀ (l : List Op) (s : PoolState),
      conserves total_mem total_cpus total_gpus s →
      conserves total_mem total_cpus total_gpus (run s l) := by
    intro l
    induction l with
    | nil => intro s h; exact h
    | cons op ops ih =>
      intro s h
      exact ih _ (step_preserves_conserves _ _ _ _ _ hm hc hg h)
  refine key ops _ ⟨?_, ?_, ?_⟩ <;>
    simp [initState, ResourceManager.new, conserves]

/-- C1 witness: a concrete run — two allocations then a release on a
(2048, 4, 0) pool — satisfies the conservation invariant. -/
theorem conservation_invariant_witness :
    conserves 2048 4 0
      (run (initState 2048 4 0 m0)
        [Op.alloc ⟨1024, 1, 0⟩, Op.alloc ⟨512, 1, 0⟩, Op.release 0]) :=
  conservation_invariant 2048 4 0 m0 _ (by decide) (by decide) (by decide)

/-- C2: No over-commitment and success postcondition — `try_allocate`
succeeds exactly when every requested amount is within the available
amount; on success all three counters are decremented by the requested
amounts and the returned allocation carries amounts identical to the
request; on failure some requested amount exceeded availability. -/
theorem try_allocate_no_overcommit (rm : ResourceManager)
    (request : ResourceRequest) (m : Metrics) :
    match (rm.try_allocate request m).2.2 with
    | Except.ok a =>
        request.mem ≤ rm.available_mem ∧
        request.cpus ≤ rm.available_cpus ∧
        request.gpus ≤ rm.available_gpus ∧
        (rm.try_allocate request m).1.available_mem
          = rm.available_mem - request.mem ∧
        (rm.try_allocate request m).1.available_cpus
          = rm.available_cpus - request.cpus ∧
        (rm.try_allocate request m).1.available_gpus
          = rm.available_gpus - request.gpus ∧
        a.mem = request.mem ∧ a.cpus = request.cpus ∧ a.gpus = request.gpus
    | Except.error _ =>
        rm.available_mem < request.mem ∨
        rm.available_cpus < request.cpus ∨
        rm.available_gpus < request.gpus := by
  simp only [ResourceManager.try_allocate]
  split_ifs with hmem hcpus hgpus <;> simp <;> omega

/-- C3: Fail-fast check order — whenever memory is insufficient the
error names memory (regardless of the other two resources); when memory
is sufficient but cpus are not, the error names cpus; when memory and
cpus are sufficient but gpus are not, the error names gpus. -/
theorem try_allocate_fail_fast (rm : ResourceManager)
    (request : ResourceRequest) (m : Metrics) :
    (rm.available_mem < request.mem →
      (rm.try_allocate request m).2.2
        = Except.error (ResourceError.NotEnoughResources "memory")) ∧
    (request.mem ≤ rm.available_mem → rm.available_cpus < request.cpus →
      (rm.try_allocate request m).2.2
        = Except.error (ResourceError.NotEnoughResources "cpus")) ∧
    (request.mem ≤ rm.available_mem → request.cpus ≤ rm.available_cpus →
      rm.available_gpus < request.gpus →
      (rm.try_allocate request m).2.2
        = Except.error (ResourceError.NotEnoughResources "gpus")) := by
  simp only [ResourceManager.try_allocate]
  refine ⟨fun h1 => ?_, fun h1 h2 => ?_, fun h1 h2 h3 => ?_⟩ <;>
    split_ifs <;> first | rfl | (exfalso; omega)

/-- C3 witness: on a (2048, 4, 0) pool, a request exceeding both memory
and cpus fails naming memory, and the request (1024, 1, 1) — memory
and cpus sufficient, gpus not — fails naming gpus. -/
theorem try_allocate_fail_fast_witness :
    ((ResourceManager.mk 2048 4 0).try_allocate ⟨4096, 8, 0⟩ m0).2.2
      = Except.error (ResourceError.NotEnoughResources "memory") ∧
    ((ResourceManager.mk 2048 4 0).try_allocate ⟨1024, 1, 1⟩ m0).2.2
      = Except.error (ResourceError.NotEnoughResources "gpus") :=
  ⟨(try_allocate_fail_fast (ResourceManager.mk 2048 4 0) ⟨4096, 8, 0⟩ m0).1
      (by decide),
   (try_allocate_fail_fast (ResourceManager.mk 2048 4 0) ⟨1024, 1, 1⟩ m0).2.2
      (by decide) (by decide) (by decide)⟩

/-- C4: Atomicity of failure — whenever `try_allocate` returns an
error, the manager state and the metrics are unchanged, and the error
is `NotEnoughResources` naming one of the three resources. -/
theorem try_allocate_failure_atomic (rm : ResourceManager)
    (request : ResourceRequest) (m : Metrics) (e : ResourceError)
    (h : (rm.try_allocate request m).2.2 = Except.error e) :
    (rm.try_allocate request m).1 = rm ∧
    (rm.try_allocate request m).2.1 = m ∧
    (e = ResourceError.NotEnoughResources "memory" ∨
     e = ResourceError.NotEnoughResources "cpus" ∨
     e = ResourceError.NotEnoughResources "gpus") := by
  simp only [ResourceManager.try_allocate] at h ⊢
  split_ifs at h ⊢
  all_goals simp_all

/-- C4 witness: the failing request (4096, 2, 0) on a (2048, 4, 0) pool
leaves the counters and metrics untouched. -/
theorem try_allocate_failure_atomic_witness :
    ((ResourceManager.mk 2048 4 0).try_allocate ⟨4096, 2, 0⟩ m0).1
      = ResourceManager.mk 2048 4 0 ∧
    ((ResourceManager.mk 2048 4 0).try_allocate ⟨4096, 2, 0⟩ m0).2.1 = m0 ∧
    (ResourceError.NotEnoughResources "memory"
        = ResourceError.NotEnoughResources "memory" ∨
     ResourceError.NotEnoughResources "memory"
        = ResourceError.NotEnoughResources "cpus" ∨
     ResourceError.NotEnoughResources "memory"
        = ResourceError.NotEnoughResources "gpus") :=
  try_allocate_failure_atomic (ResourceManager.mk 2048 4 0) ⟨4096, 2, 0⟩ m0
    (ResourceError.NotEnoughResources "memory") rfl

/-- When every requested amount fits, `try_allocate` takes the success
branch and its full result is determined. -/
theorem try_allocate_of_le (rm : ResourceManager) (request : ResourceRequest)
    (m : Metrics)
    (h1 : request.mem ≤ rm.available_mem)
    (h2 : request.cpus ≤ rm.available_cpus)
    (h3 : request.gpus ≤ rm.available_gpus) :
    rm.try_allocate request m =
      ({ available_mem := rm.available_mem - request.mem
         available_cpus := rm.available_cpus - request.cpus
         available_gpus := rm.available_gpus - request.gpus },
       { m with
         cpus_available := u64_as_i64 (rm.available_cpus - request.cpus)
         mem_available := u64_as_i64 (rm.available_mem - request.mem)
         gpus_available := u64_as_i64 (rm.available_gpus - request.gpus) },
       Except.ok { mem := request.mem, cpus := request.cpus, gpus := request.gpus }) := by
  simp only [ResourceManager.try_allocate]
  rw [if_neg (by omega), if_neg (by omega), if_neg (by omega)]

/-- A successful `try_allocate` implies the request fitted and the
returned allocation equals the request. -/
theorem try_allocate_ok_inv (rm : ResourceManager) (request : ResourceRequest)
    (m : Metrics) (a : ResourceAllocation)
    (h : (rm.try_allocate request m).2.2 = Except.ok a) :
    request.mem ≤ rm.available_mem ∧ request.cpus ≤ rm.available_cpus ∧
    request.gpus ≤ rm.available_gpus ∧
    a = ⟨request.mem, request.cpus, request.gpus⟩ := by
  simp only [ResourceManager.try_allocate] at h
  split_ifs at h with h1 h2 h3
  all_goals simp at h
  exact ⟨by omega, by omega, by omega, h.symm⟩

/-- C5: Reserve/release round trip — if `try_allocate` succeeds, freeing
the returned allocation adds back exactly the granted amounts, restoring
all three counters to their pre-allocation values, and the same request
then succeeds again with the same grant. -/
theorem allocate_free_round_trip (rm : ResourceManager)
    (request : ResourceRequest) (m mf : Metrics) (a : ResourceAllocation)
    (hum : rm.available_mem < U64_MOD) (huc : rm.available_cpus < U64_MOD)
    (hug : rm.available_gpus < U64_MOD)
    (h : (rm.try_allocate request m).2.2 = Except.ok a) :
    ((rm.try_allocate request m).1.free a mf).1.available_mem
      = (rm.try_allocate request m).1.available_mem + a.mem ∧
    ((rm.try_allocate request m).1.free a mf).1.available_cpus
      = (rm.try_allocate request m).1.available_cpus + a.cpus ∧
    ((rm.try_allocate request m).1.free a mf).1.available_gpus
      = (rm.try_allocate request m).1.available_gpus + a.gpus ∧
    ((rm.try_allocate request m).1.free a mf).1 = rm ∧
    ((((rm.try_allocate request m).1.free a mf).1).try_allocate request mf).2.2
      = Except.ok a := by
  obtain ⟨am, ac, ag⟩ := rm
  obtain ⟨hm1, hm2, hm3, ha⟩ := try_allocate_ok_inv _ request m a h
  subst ha
  have h1 : request.mem ≤ am := hm1
  have h2 : request.cpus ≤ ac := hm2
  have h3 : request.gpus ≤ ag := hm3
  have b1 : am < 2 ^ 64 := hum
  have b2 : ac < 2 ^ 64 := huc
  have b3 : ag < 2 ^ 64 := hug
  clear hum huc hug
  rw [try_allocate_of_le _ _ _ hm1 hm2 hm3]
  have h4 : ((ResourceManager.mk (am - request.mem) (ac - request.cpus)
        (ag - request.gpus)).free
        ⟨request.mem, request.cpus, request.gpus⟩ mf).1
      = ResourceManager.mk am ac ag := by
    simp only [ResourceManager.free, ResourceManager.mk.injEq, U64_MOD]
    omega
  refine ⟨?_, ?_, ?_, h4, ?_⟩
  · simp only [ResourceManager.free, U64_MOD]
    omega
  · simp only [ResourceManager.free, U64_MOD]
    omega
  · simp only [ResourceManager.free, U64_MOD]
    omega
  · rw [h4, try_allocate_of_le _ _ _ hm1 hm2 hm3]

/-- C5 witness: on a (2048, 4, 0) pool, allocating (2048, 4, 0) and then
freeing the grant restores the counters and lets the identical request
succeed again. -/
theorem allocate_free_round_trip_witness :
    (((ResourceManager.mk 2048 4 0).try_allocate ⟨2048, 4, 0⟩ m0).1.free
        ⟨2048, 4, 0⟩ m0).1 = ResourceManager.mk 2048 4 0 ∧
    ((((ResourceManager.mk 2048 4 0).try_allocate ⟨2048, 4, 0⟩ m0).1.free
        ⟨2048, 4, 0⟩ m0).1.try_allocate ⟨2048, 4, 0⟩ m0).2.2
      = Except.ok ⟨2048, 4, 0⟩ :=
  have h := allocate_free_round_trip (ResourceManager.mk 2048 4 0)
    ⟨2048, 4, 0⟩ m0 m0 ⟨2048, 4, 0⟩ (by decide) (by decide) (by decide) rfl
  ⟨h.2.2.2.1, h.2.2.2.2⟩

/-- C6: Release cannot fail — under the conservation invariant, freeing
an outstanding allocation performs three u64 additions that do not wrap
(each result equals the exact sum and stays within that resource's
total), and construction initialises the counters to the totals with no
failure mode. -/
theorem free_cannot_fail (total_mem total_cpus total_gpus : Nat)
    (s : PoolState) (a : ResourceAllocation) (i : Nat) (mf : Metrics)
    (hm : total_mem < U64_MOD) (hc : total_cpus < U64_MOD)
    (hg : total_gpus < U64_MOD)
    (hinv : conserves total_mem total_cpus total_gpus s)
    (hout : s.outstanding[i]? = some a) :
    (s.rm.free a mf).1.available_mem = s.rm.available_mem + a.mem ∧
    (s.rm.free a mf).1.available_cpus = s.rm.available_cpus + a.cpus ∧
    (s.rm.free a mf).1.available_gpus = s.rm.available_gpus + a.gpus ∧
    (s.rm.free a mf).1.available_mem ≤ total_mem ∧
    (s.rm.free a mf).1.available_cpus ≤ total_cpus ∧
    (s.rm.free a mf).1.available_gpus ≤ total_gpus ∧
    (ResourceManager.new total_mem total_cpus total_gpus mf).1
      = ResourceManager.mk total_mem total_cpus total_gpus := by
  obtain ⟨h1, h2, h3⟩ := hinv
  have e1 := sum_map_eraseIdx ResourceAllocation.mem s.outstanding i a hout
  have e2 := sum_map_eraseIdx ResourceAllocation.cpus s.outstanding i a hout
  have e3 := sum_map_eraseIdx ResourceAllocation.gpus s.outstanding i a hout
  simp only [U64_MOD] at hm hc hg
  refine ⟨?_, ?_, ?_, ?_, ?_, ?_, rfl⟩ <;>
    simp only [ResourceManager.free, U64_MOD] <;> omega

/-- C6 witness: at totals (2048, 4, 0), a pool with available
(1024, 3, 0) and one outstanding allocation (1024, 1, 0) frees it
without any wrap, landing back at the totals. -/
theorem free_cannot_fail_witness :
    ((ResourceManager.mk 1024 3 0).free ⟨1024, 1, 0⟩ m0).1.available_mem
      = 1024 + 1024 ∧
    ((ResourceManager.mk 1024 3 0).free ⟨1024, 1, 0⟩ m0).1.available_mem ≤ 2048 :=
  have h := free_cannot_fail 2048 4 0
    ⟨ResourceManager.mk 1024 3 0, m0, [⟨1024, 1, 0⟩]⟩ ⟨1024, 1, 0⟩ 0 m0
    (by decide) (by decide) (by decide) (by exact ⟨rfl, rfl, rfl⟩) rfl
  ⟨h.1, h.2.2.2.1⟩

/-- C7: Capacity probe — `get_configured_resources` returns
`(cpu_count, total_mem_bytes, gpu_count)`: the GPU count is exactly 1
when GPU device configuration is present and exactly 0 when absent; the
CPU count is the override when present, otherwise the environment's CPU
count; the memory is `mem_gb * 1024 * 1024 * 1024` bytes when the
override is present (stated for products within u64 range, matching the
u64 arithmetic), otherwise the environment's total memory. -/
theorem get_configured_resources_spec (config : Config)
    (env_num_cpus env_total_mem : Nat) :
    (config.gpu_devices.isSome →
      (get_configured_resources config env_num_cpus env_total_mem).2.2 = 1) ∧
    (config.gpu_devices = none →
      (get_configured_resources config env_num_cpus env_total_mem).2.2 = 0) ∧
    (∀ c, config.num_cpus = some c →
      (get_configured_resources config env_num_cpus env_total_mem).1 = c) ∧
    (config.num_cpus = none →
      (get_configured_resources config env_num_cpus env_total_mem).1
        = env_num_cpus) ∧
    (∀ g, config.mem_gb = some g → g * 1024 * 1024 * 1024 < U64_MOD →
      (get_configured_resources config env_num_cpus env_total_mem).2.1
        = g * 1024 * 1024 * 1024) ∧
    (config.mem_gb = none →
      (get_configured_resources config env_num_cpus env_total_mem).2.1
        = env_total_mem) := by
  obtain ⟨gd, nc, mg⟩ := config
  refine ⟨fun h1 => ?_, fun h1 => ?_, fun c h1 => ?_, fun h1 => ?_,
    fun g h1 h2 => ?_, fun h1 => ?_⟩ <;>
    simp_all [get_configured_resources]
  exact Nat.mod_eq_of_lt h2

/-- C7 witness: with all overrides present (GPU devices configured,
8 cpus, 16 GB) the probe returns (8, 16 GiB in bytes, 1); with no
overrides it returns the environment values and 0 GPUs. -/
theorem get_configured_resources_spec_witness :
    (get_configured_resources ⟨some "gpu0", some 8, some 16⟩ 4 12345).2.2 = 1 ∧
    (get_configured_resources ⟨some "gpu0", some 8, some 16⟩ 4 12345).1 = 8 ∧
    (get_configured_resources ⟨some "gpu0", some 8, some 16⟩ 4 12345).2.1
      = 16 * 1024 * 1024 * 1024 ∧
    (get_configured_resources ⟨none, none, none⟩ 4 12345).2.2 = 0 ∧
    (get_configured_resources ⟨none, none, none⟩ 4 12345).1 = 4 ∧
    (get_configured_resources ⟨none, none, none⟩ 4 12345).2.1 = 12345 :=
  have h1 := get_configured_resources_spec ⟨some "gpu0", some 8, some 16⟩ 4 12345
  have h2 := get_configured_resources_spec ⟨none, none, none⟩ 4 12345
  ⟨h1.1 (by decide), h1.2.2.1 8 rfl, h1.2.2.2.2.1 16 rfl (by decide),
   h2.2.1 rfl, h2.2.2.2.1 rfl, h2.2.2.2.2.2 rfl⟩

/-- C8: Metrics effects — construction writes the three total gauges;
a successful `try_allocate` writes the three available gauges with the
new available values (leaving the totals in place); a failed
`try_allocate` leaves the metrics state untouched; `free` writes the
three available gauges with the new available values. -/
theorem metrics_effects (total_mem total_cpus total_gpus : Nat)
    (rm : ResourceManager) (request : ResourceRequest)
    (a : ResourceAllocation) (m : Metrics) :
    (ResourceManager.new total_mem total_cpus total_gpus m).2
      = { m with
          cpus_total := u64_as_i64 total_cpus
          mem_total := u64_as_i64 total_mem
          gpus_total := u64_as_i64 total_gpus } ∧
    (match (rm.try_allocate request m).2.2 with
     | Except.ok _ =>
        (rm.try_allocate request m).2.1
          = { m with
              cpus_available :=
                u64_as_i64 (rm.try_allocate request m).1.available_cpus
              mem_available :=
                u64_as_i64 (rm.try_allocate request m).1.available_mem
              gpus_available :=
                u64_as_i64 (rm.try_allocate request m).1.available_gpus }
     | Except.error _ => (rm.try_allocate request m).2.1 = m) ∧
    (rm.free a m).2
      = { m with
          cpus_available := u64_as_i64 (rm.free a m).1.available_cpus
          mem_available := u64_as_i64 (rm.free a m).1.available_mem
          gpus_available := u64_as_i64 (rm.free a m).1.available_gpus } := by
  refine ⟨rfl, ?_, rfl⟩
  simp only [ResourceManager.try_allocate]
  split_ifs <;> rfl

/-- C9: Zero request — on every pool state, including a fully exhausted
one, the request (0, 0, 0) succeeds, leaves all three available counters
unchanged, and returns an allocation of zero of each resource. -/
theorem zero_request_always_succeeds (rm : ResourceManager) (m : Metrics) :
    rm.try_allocate ⟨0, 0, 0⟩ m
      = (rm,
         { m with
           cpus_available := u64_as_i64 rm.available_cpus
           mem_available := u64_as_i64 rm.available_mem
           gpus_available := u64_as_i64 rm.available_gpus },
         Except.ok ⟨0, 0, 0⟩) := by
  simp only [ResourceManager.try_allocate]
  rw [if_neg (Nat.not_lt_zero _), if_neg (Nat.not_lt_zero _),
    if_neg (Nat.not_lt_zero _)]
  simp

/-- C10: Determinism — two `try_allocate` runs starting from identical
available counters with the same request produce identical results:
the same post-state, the same metrics, and the same outcome. -/
theorem try_allocate_deterministic (rm1 rm2 : ResourceManager)
    (request : ResourceRequest) (m : Metrics)
    (h1 : rm1.available_mem = rm2.available_mem)
    (h2 : rm1.available_cpus = rm2.available_cpus)
    (h3 : rm1.available_gpus = rm2.available_gpus) :
    rm1.try_allocate request m = rm2.try_allocate request m := by
  obtain ⟨a1, b1, c1⟩ := rm1
  obtain ⟨a2, b2, c2⟩ := rm2
  have e1 : a1 = a2 := h1
  have e2 : b1 = b2 := h2
  have e3 : c1 = c2 := h3
  subst e1
  subst e2
  subst e3
  rfl

/-- C10 witness: two managers with equal counters (2048, 4, 0) give the
identical result on the request (1024, 1, 0). -/
theorem try_allocate_deterministic_witness :
    (ResourceManager.mk 2048 4 0).try_allocate ⟨1024, 1, 0⟩ m0
      = (ResourceManager.mk 2048 4 0).try_allocate ⟨1024, 1, 0⟩ m0 :=
  try_allocate_deterministic (ResourceManager.mk 2048 4 0)
    (ResourceManager.mk 2048 4 0) ⟨1024, 1, 0⟩ m0 rfl rfl rfl

end Gevulot
